import Mathlib

/-!
Verification of the order-reconciliation backend (peptide-backend).

The repository is a set of near-duplicate Express revisions of one checkout
backend.  The definitions below are a shallow embedding of the route handlers
the claims refer to:

* `ordersConfirm`       — `POST /orders/confirm` of the update-then-insert
  revisions (part_000, part_002, part_004, part_009; they are line-for-line
  identical in logic).
* `ordersConfirmInsertOnly` — `POST /orders/confirm` of the insert-only
  revision (part_003).
* `ordersCreate`        — `POST /orders/create` of part_000.
* `adminListOrders`     — `GET /admin/orders` of part_000.
* `requireAdmin`        — the `requireAdmin` helper of part_006.
* `adminShip`           — `POST /admin/orders/:id/ship` of part_006.
* `createCheckout`      — `POST /square/create-checkout` of the revision in
  `server.js` (lines around 368-433), with a faithful binary64 model of
  `Math.round(Number(total) * 100)`.

JavaScript request values are modelled by `JsVal`; the database is a list of
`OrderRow`s; timestamps are abstract ticks (`Nat`), where `none` is SQL NULL.
Embedding conventions (each noted again at the definition it concerns):
order ids and transaction ids travel as strings on the wire and are modelled
as `Option String` (`none` = absent/null); the `String(...).trim()`
normalisation of admin tokens is abstracted by taking the already-trimmed
strings as inputs.
-/

/-- Exact fraction `num / den` (with `den` positive by convention), used to
model JavaScript's finite numbers.  Kept unnormalised so that all arithmetic
stays in kernel-computable `Int`/`Nat` primitives. -/
structure Frac where
  num : Int
  den : Nat
deriving DecidableEq

/-- JavaScript numbers: NaN, the two infinities, or a finite value. -/
inductive JNum where
  | nan
  | posInf
  | negInf
  | finite (f : Frac)
deriving DecidableEq

/-- JSON-ish JavaScript values as they appear in request bodies. -/
inductive JsVal where
  | undefined
  | null
  | bool (b : Bool)
  | num (n : JNum)
  | str (s : String)
  | arr (xs : List JsVal)
  | obj (fs : List (String × JsVal))

/-- Truthiness of a JavaScript number (`NaN` and `0` are falsy). -/
def JNum.truthy : JNum → Bool
  | .nan => false
  | .posInf => true
  | .negInf => true
  | .finite f => f.num != 0

/-- JavaScript truthiness: `undefined`, `null`, `false`, `0`, `NaN` and the
empty string are falsy; every object and array is truthy. -/
def JsVal.truthy : JsVal → Bool
  | .undefined => false
  | .null => false
  | .bool b => b
  | .num n => n.truthy
  | .str s => s != ""
  | .arr _ => true
  | .obj _ => true

/-- The JavaScript `a || b` operator. -/
def JsVal.orElse (a b : JsVal) : JsVal := if a.truthy then a else b

/-- The JavaScript `a ?? b` operator (`b` only for `undefined`/`null`). -/
def JsVal.coalesce : JsVal → JsVal → JsVal
  | .undefined, b => b
  | .null, b => b
  | a, _ => a

/-- Property access `v.k`: a field lookup on objects, `undefined` otherwise
(the handlers only access properties of values they have null-checked). -/
def JsVal.get : JsVal → String → JsVal
  | .obj fs, k => ((fs.find? (fun p => p.1 == k)).map Prod.snd).getD .undefined
  | _, _ => .undefined

/-- The check `Array.isArray(v) && v.length > 0` used on `items`. -/
def JsVal.isNonEmptyArray : JsVal → Bool
  | .arr xs => !xs.isEmpty
  | _ => false

/-- The check `v && typeof v === "object"` used on `totals`: any truthy
object or array passes (`typeof null` is `"object"` but `null` is falsy). -/
def JsVal.isTruthyObject : JsVal → Bool
  | .arr _ => true
  | .obj _ => true
  | _ => false

/-- Truthiness of an id modelled as `Option String`: present and non-empty.
(Order and transaction ids travel as strings on the wire; `none` models an
absent or null field.) -/
def strTruthy : Option String → Bool
  | some s => s != ""
  | none => false

/-- The `transactionId || null` normalisation: an empty string is falsy in
JavaScript and collapses to null. -/
def normRef : Option String → Option String
  | some s => if s = "" then none else some s
  | none => none

/-- The JavaScript number `0` as a `JsVal` (the `?? 0` fallbacks). -/
def jzero : JsVal := .num (.finite ⟨0, 1⟩)

/-! ### Binary64 model for the checkout amount conversion -/

/-- Floor logarithm base 2 by structural fuel recursion (so that the kernel
can evaluate it; `Nat.log2` itself is defined by well-founded recursion). -/
def natLog2Fuel : Nat → Nat → Nat
  | 0, _ => 0
  | fuel+1, n => if n ≤ 1 then 0 else natLog2Fuel fuel (n / 2) + 1

/-- Floor logarithm base 2 (`0` at `0` and `1`). -/
def natLog2 (n : Nat) : Nat := natLog2Fuel n n

/-- Round a fraction with positive denominator to the nearest integer, ties
to even — the IEEE-754 default rounding used for binary64 results. -/
def Frac.rne (f : Frac) : Int :=
  let fl := f.num.fdiv f.den
  let rem2 := 2 * (f.num - fl * f.den)
  if rem2 < (f.den : Int) then fl
  else if (f.den : Int) < rem2 then fl + 1
  else if fl % 2 = 0 then fl else fl + 1

/-- Round an exact value to the nearest binary64 double (round to nearest,
ties to even).  Modelled for magnitudes at least 1 — the normal range all the
claims' amounts live in; values below 1 are left exact. -/
def nearestDouble (f : Frac) : Frac :=
  if 1 ≤ f.num.fdiv f.den then
    let e := natLog2 (f.num.fdiv f.den).toNat
    if e ≤ 52 then
      ⟨Frac.rne ⟨f.num * (2:Int)^(52 - e), f.den⟩, 2^(52 - e)⟩
    else
      ⟨Frac.rne ⟨f.num, f.den * 2^(e - 52)⟩ * (2:Int)^(e - 52), 1⟩
  else f

/-- A JSON decimal literal parses to the nearest binary64 double. -/
def jsonNumber (f : Frac) : Frac := nearestDouble f

/-- The binary64 product `amount * 100`: the exact product rounded back to a
double (100 and the scaling are exact, so only one rounding happens). -/
def dmul100 (f : Frac) : Frac := nearestDouble ⟨f.num * 100, f.den⟩

/-- ECMAScript `Math.round`: the closest integer, ties toward positive
infinity — on exact values this is `⌊x + 1/2⌋`. -/
def jsRound (f : Frac) : Int := (2 * f.num + (f.den : Int)).fdiv (2 * (f.den : Int))

/-- Rounding half away from zero, the rule the spec names for the cent
conversion. -/
def roundHalfAway (f : Frac) : Int :=
  if 0 ≤ f.num then (2 * f.num + (f.den : Int)).fdiv (2 * (f.den : Int))
  else -((2 * (-f.num) + (f.den : Int)).fdiv (2 * (f.den : Int)))

/-- The value `Math.round(Number(total) * 100)` computed by the checkout
route for a finite amount. -/
def checkoutCents (amount : Frac) : Int := jsRound (dmul100 amount)

/-! ### The orders table -/

/-- One row of the `orders` table.  Timestamps are abstract ticks; `none`
models SQL NULL.  `square_transaction_id` is the payment reference column. -/
structure OrderRow where
  rowId : Nat
  created_at : Nat
  order_id : Option String
  items : JsVal
  totals : JsVal
  coupon : JsVal
  shipping_address : JsVal
  client_timestamp : Option Nat
  status : String
  payment_status : String
  paid_at : Option Nat
  square_transaction_id : Option String
  shipping_status : String
  shipped_at : Option Nat

/-- The persisted orders, in insertion order. -/
abbrev Store := List OrderRow

/-- Modelled from the spec: the `orders` table schema (its column defaults)
is not part of the repository, only the JavaScript that talks to it is.
Columns a handler's insert payload does not set follow §3 of the spec: the
payment state starts `pending` with null `paid_at` and no payment reference,
shipping starts `not_shipped` with null `shipped_at`. -/
def defaultsRow (rowId created : Nat) : OrderRow where
  rowId := rowId
  created_at := created
  order_id := none
  items := JsVal.null
  totals := JsVal.null
  coupon := JsVal.null
  shipping_address := JsVal.null
  client_timestamp := none
  status := "new"
  payment_status := "pending"
  paid_at := none
  square_transaction_id := none
  shipping_status := "not_shipped"
  shipped_at := none

/-- The rows an `.eq("order_id", oid)` filter matches. -/
def matching (s : Store) (oid : String) : List OrderRow :=
  s.filter (fun r => decide (r.order_id = some oid))

/-! ### POST /orders/confirm (update-then-insert revisions) -/

/-- The body of a confirm request.  `orderId` and `transactionId` are ids
modelled as optional strings; `pendingOrder` is the client-supplied order
snapshot, an arbitrary JavaScript value. -/
structure ConfirmReq where
  orderId : Option String
  transactionId : Option String
  pendingOrder : JsVal

/-- Responses of the confirm route: 500 for missing configuration or a
database error, 400 for validation, otherwise the written row together with
the mode (`updated` or `inserted`). -/
inductive ConfirmResp where
  | configError
  | badRequest (msg : String)
  | dbError (msg : String)
  | okUpdated (order : OrderRow)
  | okInserted (order : OrderRow)

/-- The resolution `orderId || pendingOrder.orderId` followed by the
`if (!resolvedOrderId)` guard: the first truthy (non-empty string) id. -/
def resolveOrderId (req : ConfirmReq) : Option String :=
  if strTruthy req.orderId then req.orderId
  else match req.pendingOrder.get "orderId" with
    | .str s => if s = "" then none else some s
    | _ => none

/-- The `totals` record the confirm handler rebuilds from the snapshot:
`sub`, `discount`, `shippingCost`, `total` with `??` fallbacks to 0. -/
def rebuildTotals (po : JsVal) : JsVal :=
  .obj [("sub", (po.get "subtotal").coalesce ((po.get "sub").coalesce jzero)),
        ("discount", (po.get "discount").coalesce jzero),
        ("shippingCost", (po.get "shippingCost").coalesce ((po.get "shipping").coalesce jzero)),
        ("total", (po.get "total").coalesce jzero)]

/-- The `pendingOrder.shippingAddress || pendingOrder.shipping || null`
resolution. -/
def confirmShipping (po : JsVal) : JsVal :=
  (po.get "shippingAddress").orElse ((po.get "shipping").orElse .null)

/-- The confirm handler's `payload` object written over a row: every column
of the payload is client-derived; `payment_status`, `status`, `paid_at` and
the payment reference are set unconditionally. -/
def applyConfirmPayload (req : ConfirmReq) (oid : String) (now : Nat)
    (r : OrderRow) : OrderRow :=
  { r with
    order_id := some oid
    items := (req.pendingOrder.get "items").orElse (.arr [])
    totals := rebuildTotals req.pendingOrder
    coupon := (req.pendingOrder.get "coupon").orElse .null
    shipping_address := confirmShipping req.pendingOrder
    payment_status := "paid"
    paid_at := some now
    square_transaction_id := normRef req.transactionId
    status := "paid" }

/-- The store after `update(payload).eq("order_id", oid)`: every matching row
gets the payload columns overwritten. -/
def confirmUpdate (s : Store) (req : ConfirmReq) (oid : String) (now : Nat) : Store :=
  s.map fun r => if r.order_id = some oid then applyConfirmPayload req oid now r else r

/-- `POST /orders/confirm` of part_000 / part_002 / part_004 / part_009:
validate `pendingOrder` and the resolved order id, run the update matched by
`order_id`, and insert the same payload as a fresh row only when the update
matched nothing.  `now` is the current tick, `newRowId` the id the store
would assign on insert.  No payment-gateway collaborator appears because the
source route performs no gateway call. -/
def ordersConfirm (s : Store) (req : ConfirmReq) (now newRowId : Nat) :
    Store × ConfirmResp :=
  if req.pendingOrder.truthy = false then
    (s, .badRequest "Missing pendingOrder payload")
  else
    match resolveOrderId req with
    | none => (s, .badRequest "Missing orderId")
    | some oid =>
      match matching s oid with
      | [] =>
        let row := applyConfirmPayload req oid now (defaultsRow newRowId now)
        (s ++ [row], .okInserted row)
      | [r] =>
        (confirmUpdate s req oid now, .okUpdated (applyConfirmPayload req oid now r))
      | _ =>
        (confirmUpdate s req oid now, .dbError "maybeSingle matched more than one row")

/-- `POST /orders/confirm` of the insert-only revision (part_003): no update
attempt — a fresh row is inserted on every call, and a missing order id falls
back to the synthesized `ORD-<now>` instead of failing. -/
def ordersConfirmInsertOnly (s : Store) (req : ConfirmReq) (now newRowId : Nat) :
    Store × ConfirmResp :=
  if req.pendingOrder.truthy = false then
    (s, .badRequest "Missing pendingOrder payload")
  else
    let oid := (resolveOrderId req).getD ("ORD-" ++ toString now)
    let row := applyConfirmPayload req oid now (defaultsRow newRowId now)
    (s ++ [row], .okInserted row)

/-! ### POST /orders/create (part_000) -/

/-- The body of a create request. -/
structure CreateReq where
  orderId : Option String
  items : JsVal
  totals : JsVal
  coupon : JsVal
  timestamp : Option Nat
  shippingAddress : JsVal

/-- Responses of the create route. -/
inductive CreateResp where
  | configError
  | badRequest (msg : String)
  | dbError (msg : String)
  | ok (order : OrderRow)

/-- The create handler's insert payload: the client fields plus
`status = "new"` and `payment_status = "pending"`; `paid_at` and the other
unset columns keep their defaults. -/
def createRow (req : CreateReq) (rowId now : Nat) : OrderRow :=
  { defaultsRow rowId now with
    order_id := some (req.orderId.getD "")
    items := req.items
    totals := req.totals
    coupon := req.coupon.orElse .null
    shipping_address := req.shippingAddress.orElse .null
    client_timestamp := req.timestamp
    status := "new"
    payment_status := "pending" }

/-- `POST /orders/create` of part_000: requires a truthy `orderId`, a
non-empty `items` array and a truthy object `totals` (no numeric check on the
totals fields), then performs a single insert.  No payment-gateway
collaborator appears because the source route performs no gateway call. -/
def ordersCreate (s : Store) (req : CreateReq) (now newRowId : Nat) :
    Store × CreateResp :=
  if strTruthy req.orderId = false then
    (s, .badRequest "orderId required")
  else if req.items.isNonEmptyArray = false then
    (s, .badRequest "items required")
  else if req.totals.isTruthyObject = false then
    (s, .badRequest "totals required")
  else
    (s ++ [createRow req newRowId now], .ok (createRow req newRowId now))

/-- The part_006 create handler's insert payload: `order_id` is
`orderId || null` (a falsy order id is stored as null, not rejected) and no
`payment_status` is set — the schema default `pending` of `defaultsRow`
applies. -/
def createRowP6 (req : CreateReq) (rowId now : Nat) : OrderRow :=
  { defaultsRow rowId now with
    order_id := if strTruthy req.orderId then some (req.orderId.getD "") else none
    items := req.items
    totals := req.totals
    coupon := req.coupon.orElse .null
    shipping_address := req.shippingAddress.orElse .null
    client_timestamp := req.timestamp
    status := "new" }

/-- `POST /orders/create` of part_006: `items` and `totals` are validated as
in part_000, but there is no `orderId` requirement — a missing order id is
accepted and stored as null. -/
def ordersCreateP6 (s : Store) (req : CreateReq) (now newRowId : Nat) :
    Store × CreateResp :=
  if req.items.isNonEmptyArray = false then
    (s, .badRequest "ITEMS_REQUIRED")
  else if req.totals.isTruthyObject = false then
    (s, .badRequest "TOTALS_REQUIRED")
  else
    (s ++ [createRowP6 req newRowId now], .ok (createRowP6 req newRowId now))

/-! ### GET /admin/orders (part_000) and admin auth -/

/-- Responses of the admin list route. -/
inductive ListResp where
  | configError
  | unauthorized
  | dbError (msg : String)
  | ok (orders : List OrderRow)

/-- The descending `created_at` order of `.order("created_at",
ascending false)`. -/
def createdDesc (a b : OrderRow) : Prop := b.created_at ≤ a.created_at

instance : DecidableRel createdDesc := fun _ _ => Nat.decLe _ _

instance : IsTotal OrderRow createdDesc :=
  ⟨fun a b => Nat.le_total b.created_at a.created_at⟩

instance : IsTrans OrderRow createdDesc :=
  ⟨fun _ _ _ hab hbc => Nat.le_trans hbc hab⟩

/-- `GET /admin/orders` of part_000: fail 500 when the store client is not
configured, 401 when the configured secret is empty or the supplied token
differs from it, else return the rows ordered by `created_at` descending and
capped at 200.  `tokenHeader` is the `x-admin-token` header, `adminTokenEnv`
the configured secret; both are the already-trimmed strings (the
`String(...).trim()` normalisation of the source is abstracted). -/
def adminListOrders (configured : Bool) (tokenHeader : Option String)
    (adminTokenEnv : String) (s : Store) : Store × ListResp :=
  if configured = false then (s, .configError)
  else
    let token := tokenHeader.getD ""
    if adminTokenEnv = "" ∨ token ≠ adminTokenEnv then (s, .unauthorized)
    else (s, .ok ((s.insertionSort createdDesc).take 200))

/-- The `requireAdmin` helper of part_006: token and secret both non-empty
and equal. -/
def requireAdmin (token expected : String) : Bool :=
  token != "" && expected != "" && token == expected

/-! ### POST /admin/orders/:id/ship (part_006) -/

/-- Responses of the ship route. -/
inductive ShipResp where
  | configError
  | unauthorized
  | badRequest (msg : String)
  | dbError (msg : String)
  | ok (order : OrderRow)

/-- The shipping patch of the ship route: both columns written together from
the one `shipped` flag. -/
def shipPatch (shipped : Bool) (now : Nat) (r : OrderRow) : OrderRow :=
  { r with
    shipping_status := if shipped then "shipped" else "not_shipped"
    shipped_at := if shipped then some now else none }

/-- `POST /admin/orders/:id/ship` of part_006: require the admin token, a
non-zero numeric row id (`Number(req.params.id)` followed by `if (!id)`; ids
are modelled as naturals with 0 for the falsy cases), coerce `req.body.shipped`
to a boolean with `!!`, and update the row's two shipping columns together;
`.single()` demands exactly one updated row. -/
def adminShip (configured : Bool) (token expected : String) (s : Store)
    (idv : Nat) (shippedRaw : JsVal) (now : Nat) : Store × ShipResp :=
  if configured = false then (s, .configError)
  else if requireAdmin token expected = false then (s, .unauthorized)
  else if idv = 0 then (s, .badRequest "INVALID_ID")
  else
    let shipped := shippedRaw.truthy
    let s' := s.map fun r => if r.rowId = idv then shipPatch shipped now r else r
    match s.filter (fun r => decide (r.rowId = idv)) with
    | [r] => (s', .ok (shipPatch shipped now r))
    | _ => (s', .dbError "single() expects exactly one row")

/-! ### POST /square/create-checkout (server.js revision) -/

/-- The argument shape of the gateway's create-payment-link call. -/
structure GatewayCall where
  amountCents : Int
  currency : String

/-- Responses of the checkout route. -/
inductive CheckoutResp where
  | configError
  | invalidTotal
  | missingUrls
  | gatewayError
  | ok (url : String)

/-- `POST /square/create-checkout` of the `server.js` revision: reject when
Square is unconfigured; reject `Invalid total` unless `Number(total)` is
finite and positive; reject missing redirect urls; then call the gateway with
`Math.round(amount * 100)` minor units.  `total` is the request amount after
`Number(...)` (a JavaScript number, possibly NaN); `gw` abstracts the Square
payment-link API and yields the checkout url, or nothing when no usable url
comes back.  The returned Bool records whether the gateway was invoked. -/
def createCheckout (configured : Bool) (total : JNum) (currency : String)
    (returnUrl cancelUrl : Option String) (gw : GatewayCall → Option String) :
    Bool × CheckoutResp :=
  if configured = false then (false, .configError)
  else
    match total with
    | .finite a =>
      if a.num ≤ 0 then (false, .invalidTotal)
      else if strTruthy returnUrl = false ∨ strTruthy cancelUrl = false then
        (false, .missingUrls)
      else
        match gw ⟨checkoutCents a, currency⟩ with
        | some url => (true, .ok url)
        | none => (true, .gatewayError)
    | _ => (false, .invalidTotal)

/-! ### Concrete fixtures used by the counterexamples and witnesses -/

/-- A sample line-item list. -/
def sampleItems : JsVal :=
  .arr [.obj [("sku", .str "a"), ("quantity", .num (.finite ⟨1, 1⟩))]]

/-- A sample totals record, as stored by a create call. -/
def sampleTotals : JsVal :=
  .obj [("subtotal", .num (.finite ⟨80, 1⟩)), ("total", .num (.finite ⟨80, 1⟩))]

/-- A client-supplied pending-order snapshot for `ORD-1`. -/
def snapshotC1 : JsVal :=
  .obj [("items", sampleItems), ("total", .num (.finite ⟨80, 1⟩))]

/-- A pending order row for `ORD-1`, as a create call would leave it. -/
def rowPending : OrderRow :=
  { defaultsRow 1 10 with
    order_id := some "ORD-1"
    items := sampleItems
    totals := sampleTotals }

/-- A store holding only the pending `ORD-1` row. -/
def storePending : Store := [rowPending]

/-- A confirm request for `ORD-1` with payment reference `pay_ref_1`. -/
def reqConfirm1 : ConfirmReq := ⟨some "ORD-1", some "pay_ref_1", snapshotC1⟩

/-- A payment gateway whose payment records all report a non-completed
status. -/
def gatewayAlwaysPending : String → String := fun _ => "PENDING"

/-- An `ORD-1` row already marked paid at tick 100 with reference
`pay_ref_1`. -/
def rowPaid : OrderRow :=
  { defaultsRow 1 10 with
    order_id := some "ORD-1"
    items := sampleItems
    totals := sampleTotals
    status := "paid"
    payment_status := "paid"
    paid_at := some 100
    square_transaction_id := some "pay_ref_1" }

/-- A store holding only the already-paid `ORD-1` row. -/
def storePaid : Store := [rowPaid]

/-- A second confirm request for `ORD-1`, now with reference `pay_ref_2`. -/
def reqConfirm2 : ConfirmReq := ⟨some "ORD-1", some "pay_ref_2", snapshotC1⟩

/-- The store after two insert-only (part_003) confirmations of `ORD-1`. -/
def storeDup : Store :=
  (ordersConfirmInsertOnly (ordersConfirmInsertOnly [] reqConfirm1 20 1).1
    reqConfirm1 30 2).1

/-- A stored `ORD-4` row whose items and totals came from an earlier create. -/
def rowStored4 : OrderRow :=
  { defaultsRow 1 10 with
    order_id := some "ORD-4"
    items := .arr [.str "stored-item"]
    totals := .obj [("total", .num (.finite ⟨80, 1⟩))] }

/-- A store holding only the stored `ORD-4` row. -/
def store4 : Store := [rowStored4]

/-- A client snapshot for `ORD-4` that disagrees with the stored row. -/
def snapshot4 : JsVal :=
  .obj [("items", .arr [.str "client-item"]), ("total", .num (.finite ⟨1, 1⟩))]

/-- A confirm request for `ORD-4` carrying the disagreeing snapshot. -/
def reqConfirm4 : ConfirmReq := ⟨some "ORD-4", some "pay_ref_4", snapshot4⟩

/-- A confirm request with an order id but no payment reference at all. -/
def reqConfirm5 : ConfirmReq := ⟨some "ORD-9", none, .obj []⟩

/-- A confirm request whose pending order is missing. -/
def reqNoPending : ConfirmReq := ⟨some "ORD-1", some "pay_ref_1", .undefined⟩

/-- A confirm request with a pending order but no resolvable order id. -/
def reqNoId : ConfirmReq := ⟨none, some "pay_ref_1", .obj [("total", jzero)]⟩

/-- A create request whose totals record is an object with a non-numeric
field — not a well-formed numeric record. -/
def reqCreate6 : CreateReq :=
  ⟨some "ORD-6", .arr [.obj [("sku", .str "a")]], .obj [("total", .str "abc")],
   .null, none, .null⟩

/-- A fully valid create request. -/
def reqCreateGood : CreateReq :=
  ⟨some "ORD-7", sampleItems, sampleTotals, .null, none, .null⟩

/-- A create request with no order id. -/
def reqCreateNoId : CreateReq := ⟨none, sampleItems, sampleTotals, .null, none, .null⟩

/-- A create request with an empty items array. -/
def reqCreateEmptyItems : CreateReq :=
  ⟨some "ORD-8", .arr [], sampleTotals, .null, none, .null⟩

/-- A create request whose totals is a bare string, not an object. -/
def reqCreateBadTotals : CreateReq :=
  ⟨some "ORD-8", sampleItems, .str "80", .null, none, .null⟩

/-! ### Helper lemmas -/

/-- Round-to-nearest-even of a nonnegative fraction is nonnegative. -/
theorem rne_nonneg (f : Frac) (h : 0 ≤ f.num) : 0 ≤ f.rne := by
  have hfl : 0 ≤ f.num.fdiv f.den := Int.fdiv_nonneg h (Int.ofNat_nonneg _)
  simp only [Frac.rne]
  split_ifs <;> omega

/-- Binary64 rounding keeps a nonnegative value nonnegative. -/
theorem nearestDouble_num_nonneg (f : Frac) (h : 0 ≤ f.num) :
    0 ≤ (nearestDouble f).num := by
  simp only [nearestDouble]
  split_ifs with h1 h2
  · exact rne_nonneg _ (mul_nonneg h (pow_nonneg (by norm_num) _))
  · exact mul_nonneg (rne_nonneg _ h) (pow_nonneg (by norm_num) _)
  · exact h

/-- Filtering by order id distributes over append. -/
theorem matching_append (s t : Store) (oid : String) :
    matching (s ++ t) oid = matching s oid ++ matching t oid :=
  List.filter_append s t

/-- The confirm payload stamps the resolved order id onto the row. -/
theorem applyConfirmPayload_order_id (req : ConfirmReq) (oid : String)
    (now : Nat) (r : OrderRow) :
    (applyConfirmPayload req oid now r).order_id = some oid := rfl

/-- The store-wide update patches exactly the rows the filter matches. -/
theorem matching_confirmUpdate (s : Store) (req : ConfirmReq) (oid : String)
    (now : Nat) :
    matching (confirmUpdate s req oid now) oid =
      (matching s oid).map (applyConfirmPayload req oid now) := by
  induction s with
  | nil => rfl
  | cons r t ih =>
    simp only [confirmUpdate, List.map_cons, matching, List.filter_cons] at ih ⊢
    by_cases h : r.order_id = some oid
    · simp [h, applyConfirmPayload_order_id, ih]
    · simp [h, ih]

/-- The store-wide update does not change the number of rows. -/
theorem length_confirmUpdate (s : Store) (req : ConfirmReq) (oid : String)
    (now : Nat) : (confirmUpdate s req oid now).length = s.length :=
  List.length_map s _

/-! ### C1 -/

/-- C1 counterexample: the claim says a confirm whose payment the gateway
reports as non-completed leaves `payment_status` pending and yields a
not-paid result.  At this concrete input the (only available) gateway record
for `pay_ref_1` reports `PENDING`, yet the route — which performs no gateway
call at all — marks the `ORD-1` row paid and answers with the updated row. -/
theorem c1_counterexample :
    gatewayAlwaysPending "pay_ref_1" ≠ "COMPLETED" ∧
    (ordersConfirm storePending reqConfirm1 20 2).2 =
      .okUpdated (applyConfirmPayload reqConfirm1 "ORD-1" 20 rowPending) ∧
    (applyConfirmPayload reqConfirm1 "ORD-1" 20 rowPending).payment_status = "paid" ∧
    (applyConfirmPayload reqConfirm1 "ORD-1" 20 rowPending).payment_status ≠ "pending" :=
  ⟨by decide, rfl, rfl, by decide⟩

/-- C1 amended: the confirm route of these revisions consults no payment
gateway (the embedded handler has no gateway collaborator, mirroring the
source); every request that passes validation marks the order paid
unconditionally, whatever any gateway would report. -/
theorem c1_amended (s : Store) (req : ConfirmReq) (now rid : Nat) (oid : String)
    (hpo : req.pendingOrder.truthy = true)
    (hres : resolveOrderId req = some oid)
    (hcount : (matching s oid).length ≤ 1) :
    ∃ r, ((ordersConfirm s req now rid).2 = .okUpdated r ∨
          (ordersConfirm s req now rid).2 = .okInserted r) ∧
      r.payment_status = "paid" ∧ r.status = "paid" := by
  rcases h : matching s oid with - | ⟨r, t⟩
  · exact ⟨applyConfirmPayload req oid now (defaultsRow rid now),
      Or.inr (by simp [ordersConfirm, hpo, hres, h]), rfl, rfl⟩
  · rcases t with - | ⟨r2, t2⟩
    · exact ⟨applyConfirmPayload req oid now r,
        Or.inl (by simp [ordersConfirm, hpo, hres, h]), rfl, rfl⟩
    · rw [h] at hcount
      simp at hcount

/-- C1 witness: the amended statement at the concrete pending `ORD-1`
store. -/
theorem c1_witness :
    ∃ r, ((ordersConfirm storePending reqConfirm1 20 2).2 = .okUpdated r ∨
          (ordersConfirm storePending reqConfirm1 20 2).2 = .okInserted r) ∧
      r.payment_status = "paid" ∧ r.status = "paid" :=
  c1_amended storePending reqConfirm1 20 2 "ORD-1" (by decide) (by decide)
    (by decide)

/-! ### C2 -/

/-- C2 counterexample: the claim says a second confirmation of an
already-paid order leaves `paid_at` and the payment reference unchanged.  At
this concrete input `ORD-1` is already paid (`paid_at = 100`, reference
`pay_ref_1`); a repeat confirmation at tick 200 with reference `pay_ref_2`
overwrites both. -/
theorem c2_counterexample :
    (ordersConfirm storePaid reqConfirm2 200 5).2 =
      .okUpdated (applyConfirmPayload reqConfirm2 "ORD-1" 200 rowPaid) ∧
    rowPaid.paid_at = some 100 ∧
    (applyConfirmPayload reqConfirm2 "ORD-1" 200 rowPaid).paid_at = some 200 ∧
    rowPaid.square_transaction_id = some "pay_ref_1" ∧
    (applyConfirmPayload reqConfirm2 "ORD-1" 200 rowPaid).square_transaction_id =
      some "pay_ref_2" :=
  ⟨rfl, rfl, rfl, rfl, by decide⟩

/-- C2 amended: a repeat confirmation of an already-stored order takes the
update path and returns the row still marked paid — status never regresses
and no new row appears — but it re-applies the payload: `paid_at` is
overwritten with the call's tick and the payment reference with the newly
supplied `transactionId` (null when absent), rather than being written only
once. -/
theorem c2_amended (s : Store) (req : ConfirmReq) (now rid : Nat)
    (oid : String) (r : OrderRow)
    (hpo : req.pendingOrder.truthy = true)
    (hres : resolveOrderId req = some oid)
    (hone : matching s oid = [r]) :
    (ordersConfirm s req now rid).2 =
      .okUpdated (applyConfirmPayload req oid now r) ∧
    (applyConfirmPayload req oid now r).payment_status = "paid" ∧
    (applyConfirmPayload req oid now r).status = "paid" ∧
    (applyConfirmPayload req oid now r).paid_at = some now ∧
    (applyConfirmPayload req oid now r).square_transaction_id =
      normRef req.transactionId ∧
    (ordersConfirm s req now rid).1.length = s.length := by
  have hmain : ordersConfirm s req now rid =
      (confirmUpdate s req oid now, .okUpdated (applyConfirmPayload req oid now r)) := by
    simp [ordersConfirm, hpo, hres, hone]
  rw [hmain]
  exact ⟨rfl, rfl, rfl, rfl, rfl, length_confirmUpdate s req oid now⟩

/-- C2 witness: the amended statement at the concrete already-paid `ORD-1`
store. -/
theorem c2_witness :
    (ordersConfirm storePaid reqConfirm2 200 5).2 =
      .okUpdated (applyConfirmPayload reqConfirm2 "ORD-1" 200 rowPaid) ∧
    (applyConfirmPayload reqConfirm2 "ORD-1" 200 rowPaid).payment_status = "paid" ∧
    (applyConfirmPayload reqConfirm2 "ORD-1" 200 rowPaid).status = "paid" ∧
    (applyConfirmPayload reqConfirm2 "ORD-1" 200 rowPaid).paid_at = some 200 ∧
    (applyConfirmPayload reqConfirm2 "ORD-1" 200 rowPaid).square_transaction_id =
      normRef reqConfirm2.transactionId ∧
    (ordersConfirm storePaid reqConfirm2 200 5).1.length = storePaid.length :=
  c2_amended storePaid reqConfirm2 200 5 "ORD-1" rowPaid (by decide) (by decide) rfl

/-! ### C3 -/

/-- C3 counterexample: the claim says repeated confirmations never create
duplicate rows for the same order id, citing the insert-only revision
(part_003) among its sources.  There the route inserts unconditionally: two
confirmations of the never-before-seen `ORD-1` leave two rows for it. -/
theorem c3_counterexample : (matching storeDup "ORD-1").length = 2 := by decide

/-- C3 amended: in the update-then-insert revisions the insert path is taken
exactly when the update matched zero rows, so a confirm of an unknown order
id persists exactly one paid row and a repeat confirm adds none; the
insert-only revision (part_003), however, appends a fresh row on every
confirm call, so repeated confirmations there do create duplicates. -/
theorem c3_amended (req : ConfirmReq) (now rid : Nat) (oid : String)
    (hpo : req.pendingOrder.truthy = true)
    (hres : resolveOrderId req = some oid)
    (s0 : Store) (h0 : matching s0 oid = [])
    (s1 : Store) (r : OrderRow) (h1 : matching s1 oid = [r]) :
    (∃ row, (ordersConfirm s0 req now rid).1 = s0 ++ [row] ∧
       matching (ordersConfirm s0 req now rid).1 oid = [row] ∧
       row.payment_status = "paid") ∧
    ((ordersConfirm s1 req now rid).1.length = s1.length ∧
       matching (ordersConfirm s1 req now rid).1 oid =
         [applyConfirmPayload req oid now r]) ∧
    (∀ (s : Store), (ordersConfirmInsertOnly s req now rid).1 =
       s ++ [applyConfirmPayload req oid now (defaultsRow rid now)]) := by
  have hins : (ordersConfirm s0 req now rid).1 =
      s0 ++ [applyConfirmPayload req oid now (defaultsRow rid now)] := by
    simp [ordersConfirm, hpo, hres, h0]
  have hupd : (ordersConfirm s1 req now rid).1 = confirmUpdate s1 req oid now := by
    simp [ordersConfirm, hpo, hres, h1]
  refine ⟨⟨applyConfirmPayload req oid now (defaultsRow rid now), hins, ?_, rfl⟩,
    ⟨?_, ?_⟩, ?_⟩
  · rw [hins, matching_append, h0]
    simp [matching, applyConfirmPayload_order_id]
  · rw [hupd]
    exact length_confirmUpdate s1 req oid now
  · rw [hupd, matching_confirmUpdate, h1]
    rfl
  · intro s
    simp [ordersConfirmInsertOnly, hpo, hres]

/-- C3 witness: the amended statement at concrete stores — an empty store
and the single-row `ORD-1` store. -/
theorem c3_witness :
    (∃ row, (ordersConfirm [] reqConfirm1 20 2).1 = [] ++ [row] ∧
       matching (ordersConfirm [] reqConfirm1 20 2).1 "ORD-1" = [row] ∧
       row.payment_status = "paid") ∧
    ((ordersConfirm storePending reqConfirm1 20 2).1.length = storePending.length ∧
       matching (ordersConfirm storePending reqConfirm1 20 2).1 "ORD-1" =
         [applyConfirmPayload reqConfirm1 "ORD-1" 20 rowPending]) ∧
    (∀ (s : Store), (ordersConfirmInsertOnly s reqConfirm1 20 2).1 =
       s ++ [applyConfirmPayload reqConfirm1 "ORD-1" 20 (defaultsRow 2 20)]) :=
  c3_amended reqConfirm1 20 2 "ORD-1" (by decide) (by decide) [] rfl
    storePending rowPending rfl

/-! ### C4 -/

/-- C4 counterexample: the claim says a confirm that finds an existing row
keeps the items and totals already on file.  At this concrete input the
stored `ORD-4` row holds `stored-item`; the confirm's update overwrites the
row's items with the client snapshot's `client-item` (and its rebuilt
totals), so the stored values are not preserved. -/
theorem c4_counterexample :
    (ordersConfirm store4 reqConfirm4 50 9).2 =
      .okUpdated (applyConfirmPayload reqConfirm4 "ORD-4" 50 rowStored4) ∧
    rowStored4.items = .arr [.str "stored-item"] ∧
    (applyConfirmPayload reqConfirm4 "ORD-4" 50 rowStored4).items =
      .arr [.str "client-item"] ∧
    (applyConfirmPayload reqConfirm4 "ORD-4" 50 rowStored4).items ≠
      rowStored4.items := by
  refine ⟨rfl, rfl, rfl, ?_⟩
  intro hcontra
  have h1 : (applyConfirmPayload reqConfirm4 "ORD-4" 50 rowStored4).items =
      JsVal.arr [.str "client-item"] := rfl
  have h2 : rowStored4.items = JsVal.arr [.str "stored-item"] := rfl
  rw [h1, h2] at hcontra
  simp only [JsVal.arr.injEq, List.cons.injEq, JsVal.str.injEq] at hcontra
  exact absurd hcontra.1 (by decide)

/-- C4 amended: when the update path is taken, every content column of the
row — items, totals, shipping address — is overwritten with values derived
from the client-supplied snapshot (missing snapshot fields defaulting to an
empty list, zeros, or null); the values previously on file are not used. -/
theorem c4_amended (s : Store) (req : ConfirmReq) (now rid : Nat)
    (oid : String) (r : OrderRow)
    (hpo : req.pendingOrder.truthy = true)
    (hres : resolveOrderId req = some oid)
    (hone : matching s oid = [r]) :
    (ordersConfirm s req now rid).2 =
      .okUpdated (applyConfirmPayload req oid now r) ∧
    (applyConfirmPayload req oid now r).items =
      (req.pendingOrder.get "items").orElse (.arr []) ∧
    (applyConfirmPayload req oid now r).totals = rebuildTotals req.pendingOrder ∧
    (applyConfirmPayload req oid now r).shipping_address =
      confirmShipping req.pendingOrder ∧
    (applyConfirmPayload req oid now r).coupon =
      (req.pendingOrder.get "coupon").orElse .null := by
  refine ⟨?_, rfl, rfl, rfl, rfl⟩
  simp [ordersConfirm, hpo, hres, hone]

/-- C4 witness: the amended statement at the concrete `ORD-4` store. -/
theorem c4_witness :
    (ordersConfirm store4 reqConfirm4 50 9).2 =
      .okUpdated (applyConfirmPayload reqConfirm4 "ORD-4" 50 rowStored4) ∧
    (applyConfirmPayload reqConfirm4 "ORD-4" 50 rowStored4).items =
      (reqConfirm4.pendingOrder.get "items").orElse (.arr []) ∧
    (applyConfirmPayload reqConfirm4 "ORD-4" 50 rowStored4).totals =
      rebuildTotals reqConfirm4.pendingOrder ∧
    (applyConfirmPayload reqConfirm4 "ORD-4" 50 rowStored4).shipping_address =
      confirmShipping reqConfirm4.pendingOrder ∧
    (applyConfirmPayload reqConfirm4 "ORD-4" 50 rowStored4).coupon =
      (reqConfirm4.pendingOrder.get "coupon").orElse .null :=
  c4_amended store4 reqConfirm4 50 9 "ORD-4" rowStored4 (by decide) (by decide) rfl

/-! ### C5 -/

/-- C5 counterexample: the claim says a confirm without a payment reference
fails with a validation error and mutates nothing.  At this concrete input
the request carries an order id but no `transactionId` at all, and the route
succeeds anyway: it inserts one paid row whose payment reference is null. -/
theorem c5_counterexample :
    (ordersConfirm [] reqConfirm5 70 3).1.length = 1 ∧
    (ordersConfirm [] reqConfirm5 70 3).2 =
      .okInserted (applyConfirmPayload reqConfirm5 "ORD-9" 70 (defaultsRow 3 70)) ∧
    (applyConfirmPayload reqConfirm5 "ORD-9" 70 (defaultsRow 3 70)).square_transaction_id =
      none ∧
    (applyConfirmPayload reqConfirm5 "ORD-9" 70 (defaultsRow 3 70)).payment_status =
      "paid" :=
  ⟨rfl, rfl, rfl, rfl⟩

/-- C5 amended: the only validation failures of the confirm route are a
missing (falsy) `pendingOrder` payload and an unresolvable order id; both
return 400 and leave the store untouched.  A missing `payment_reference`
(`transactionId`) is not validated — the confirmation proceeds and stores a
null reference. -/
theorem c5_amended (s : Store) (now rid : Nat) (req1 req2 : ConfirmReq)
    (h1 : req1.pendingOrder.truthy = false)
    (h2 : req2.pendingOrder.truthy = true)
    (h2b : resolveOrderId req2 = none) :
    ordersConfirm s req1 now rid = (s, .badRequest "Missing pendingOrder payload") ∧
    ordersConfirm s req2 now rid = (s, .badRequest "Missing orderId") := by
  constructor
  · simp [ordersConfirm, h1]
  · simp [ordersConfirm, h2, h2b]

/-- C5 witness: the amended statement at a concrete store and the two
concrete invalid requests. -/
theorem c5_witness :
    ordersConfirm storePending reqNoPending 70 3 =
      (storePending, .badRequest "Missing pendingOrder payload") ∧
    ordersConfirm storePending reqNoId 70 3 =
      (storePending, .badRequest "Missing orderId") :=
  c5_amended storePending 70 3 reqNoPending reqNoId (by decide) (by decide)
    (by decide)

/-! ### C6 -/

/-- C6 counterexample: the claim says a create whose totals is not a
well-formed numeric record fails with a validation error.  At this concrete
input the totals object's only field is the string `abc`; the route accepts
it and inserts the row, storing the non-numeric record as-is. -/
theorem c6_counterexample :
    (ordersCreate [] reqCreate6 80 4) =
      ([createRow reqCreate6 4 80], .ok (createRow reqCreate6 4 80)) ∧
    (createRow reqCreate6 4 80).totals = .obj [("total", .str "abc")] ∧
    (createRow reqCreate6 4 80).status = "new" ∧
    (createRow reqCreate6 4 80).payment_status = "pending" :=
  ⟨rfl, rfl, rfl, rfl⟩

/-- C6 amended: both cited create routes validate that `items` is a
non-empty array and `totals` is a truthy object — numeric well-formedness of
the totals fields is not checked.  The part_000 revision additionally
requires a truthy `orderId`, while the part_006 revision accepts a missing
`orderId` and stores a null order id.  Inputs passing the checks cause
exactly one insert (neither route has a gateway collaborator) and the
persisted row has `status = "new"`, `payment_status = "pending"` and a null
`paid_at`. -/
theorem c6_amended (s : Store) (now rid : Nat) (req : CreateReq)
    (h1 : strTruthy req.orderId = true)
    (h2 : req.items.isNonEmptyArray = true)
    (h3 : req.totals.isTruthyObject = true)
    (r1 : CreateReq) (hb1 : strTruthy r1.orderId = false)
    (r2 : CreateReq) (hb2 : strTruthy r2.orderId = true)
    (hb2b : r2.items.isNonEmptyArray = false)
    (r3 : CreateReq) (hb3 : strTruthy r3.orderId = true)
    (hb3b : r3.items.isNonEmptyArray = true)
    (hb3c : r3.totals.isTruthyObject = false)
    (r4 : CreateReq) (hb4 : strTruthy r4.orderId = false)
    (hb4b : r4.items.isNonEmptyArray = true)
    (hb4c : r4.totals.isTruthyObject = true) :
    (ordersCreate s req now rid = (s ++ [createRow req rid now], .ok (createRow req rid now)) ∧
       (createRow req rid now).status = "new" ∧
       (createRow req rid now).payment_status = "pending" ∧
       (createRow req rid now).paid_at = none) ∧
    ordersCreate s r1 now rid = (s, .badRequest "orderId required") ∧
    ordersCreate s r2 now rid = (s, .badRequest "items required") ∧
    ordersCreate s r3 now rid = (s, .badRequest "totals required") ∧
    (ordersCreateP6 s r4 now rid =
        (s ++ [createRowP6 r4 rid now], .ok (createRowP6 r4 rid now)) ∧
       (createRowP6 r4 rid now).order_id = none ∧
       (createRowP6 r4 rid now).status = "new" ∧
       (createRowP6 r4 rid now).payment_status = "pending" ∧
       (createRowP6 r4 rid now).paid_at = none) ∧
    ordersCreateP6 s r2 now rid = (s, .badRequest "ITEMS_REQUIRED") ∧
    ordersCreateP6 s r3 now rid = (s, .badRequest "TOTALS_REQUIRED") := by
  refine ⟨⟨?_, rfl, rfl, rfl⟩, ?_, ?_, ?_, ⟨?_, ?_, rfl, rfl, rfl⟩, ?_, ?_⟩
  · simp [ordersCreate, h1, h2, h3]
  · simp [ordersCreate, hb1]
  · simp [ordersCreate, hb2, hb2b]
  · simp [ordersCreate, hb3, hb3b, hb3c]
  · simp [ordersCreateP6, hb4b, hb4c]
  · simp [createRowP6, hb4]
  · simp [ordersCreateP6, hb2b]
  · simp [ordersCreateP6, hb3b, hb3c]

/-- C6 witness: the amended statement at a concrete valid request, the three
concrete part_000-invalid ones, and the id-less request part_006 accepts. -/
theorem c6_witness :
    (ordersCreate [] reqCreateGood 90 6 =
        ([] ++ [createRow reqCreateGood 6 90], .ok (createRow reqCreateGood 6 90)) ∧
       (createRow reqCreateGood 6 90).status = "new" ∧
       (createRow reqCreateGood 6 90).payment_status = "pending" ∧
       (createRow reqCreateGood 6 90).paid_at = none) ∧
    ordersCreate [] reqCreateNoId 90 6 = ([], .badRequest "orderId required") ∧
    ordersCreate [] reqCreateEmptyItems 90 6 = ([], .badRequest "items required") ∧
    ordersCreate [] reqCreateBadTotals 90 6 = ([], .badRequest "totals required") ∧
    (ordersCreateP6 [] reqCreateNoId 90 6 =
        ([] ++ [createRowP6 reqCreateNoId 6 90], .ok (createRowP6 reqCreateNoId 6 90)) ∧
       (createRowP6 reqCreateNoId 6 90).order_id = none ∧
       (createRowP6 reqCreateNoId 6 90).status = "new" ∧
       (createRowP6 reqCreateNoId 6 90).payment_status = "pending" ∧
       (createRowP6 reqCreateNoId 6 90).paid_at = none) ∧
    ordersCreateP6 [] reqCreateEmptyItems 90 6 = ([], .badRequest "ITEMS_REQUIRED") ∧
    ordersCreateP6 [] reqCreateBadTotals 90 6 = ([], .badRequest "TOTALS_REQUIRED") :=
  c6_amended [] 90 6 reqCreateGood (by decide) (by decide) (by decide)
    reqCreateNoId (by decide)
    reqCreateEmptyItems (by decide) (by decide)
    reqCreateBadTotals (by decide) (by decide) (by decide)
    reqCreateNoId (by decide) (by decide) (by decide)

/-! ### C7 -/

/-- C7: the checkout route converts the amount with
`Math.round(amount * 100)` in binary64 arithmetic.  For every positive finite
amount this rounding step is exactly round-half-away-from-zero applied at the
cent boundary of the (binary64) product; the spec's examples both hold —
19.99 gives exactly 1999, and 19.945 gives exactly 1995 because the binary64
product of the double nearest 19.945 with 100 is exactly 1994.5, whose tie
rounds away from zero.  Non-finite and non-positive totals (NaN, the
infinities, zero and negatives) are rejected with the validation error before
the gateway call (the Bool component records that the gateway was not
invoked). -/
theorem c7_theorem (a : Frac) (hpos : 0 ≤ a.num)
    (b : Frac) (hneg : b.num ≤ 0)
    (cur : String) (ru cu : Option String) (gw : GatewayCall → Option String) :
    checkoutCents a = roundHalfAway (dmul100 a) ∧
    checkoutCents (jsonNumber ⟨1999, 100⟩) = 1999 ∧
    checkoutCents (jsonNumber ⟨19945, 1000⟩) = 1995 ∧
    createCheckout true (.finite b) cur ru cu gw = (false, .invalidTotal) ∧
    createCheckout true .nan cur ru cu gw = (false, .invalidTotal) ∧
    createCheckout true .posInf cur ru cu gw = (false, .invalidTotal) ∧
    createCheckout true .negInf cur ru cu gw = (false, .invalidTotal) := by
  refine ⟨?_, by decide, by decide, ?_, rfl, rfl, rfl⟩
  · have h : 0 ≤ (dmul100 a).num :=
      nearestDouble_num_nonneg _ (mul_nonneg hpos (by norm_num))
    rw [checkoutCents, roundHalfAway, if_pos h]
    rfl
  · simp [createCheckout, hneg]

/-- C7 witness: the theorem at the concrete amounts 1 (positive) and 0
(rejected), with concrete urls and gateway. -/
theorem c7_witness :
    checkoutCents ⟨1, 1⟩ = roundHalfAway (dmul100 ⟨1, 1⟩) ∧
    checkoutCents (jsonNumber ⟨1999, 100⟩) = 1999 ∧
    checkoutCents (jsonNumber ⟨19945, 1000⟩) = 1995 ∧
    createCheckout true (.finite ⟨0, 1⟩) "USD" (some "r") (some "c")
      (fun _ => some "u") = (false, .invalidTotal) ∧
    createCheckout true .nan "USD" (some "r") (some "c")
      (fun _ => some "u") = (false, .invalidTotal) ∧
    createCheckout true .posInf "USD" (some "r") (some "c")
      (fun _ => some "u") = (false, .invalidTotal) ∧
    createCheckout true .negInf "USD" (some "r") (some "c")
      (fun _ => some "u") = (false, .invalidTotal) :=
  c7_theorem ⟨1, 1⟩ (by decide) ⟨0, 1⟩ (by decide) "USD" (some "r") (some "c")
    (fun _ => some "u")

/-! ### C8 -/

/-- C8: the admin list route answers 401 whenever the supplied token differs
from the configured secret — missing and wrong tokens alike, whatever the
store holds — and, when the token matches a non-empty secret, returns the
stored orders themselves: exactly the descending `created_at` sort of the
store capped at 200, hence a sorted list of `min 200 |s|` rows all drawn from
the store, which is a permutation of the whole store whenever it has at most
200 rows; the store is left unchanged (the handler only selects). -/
theorem c8_theorem (tokWrong : Option String) (env : String) (s : Store)
    (hwrong : tokWrong.getD "" ≠ env)
    (tokOk : Option String) (hok : tokOk.getD "" = env) (hne : env ≠ "") :
    adminListOrders true tokWrong env s = (s, .unauthorized) ∧
    (adminListOrders true tokOk env s).1 = s ∧
    ∃ l, (adminListOrders true tokOk env s).2 = .ok l ∧
      l = (s.insertionSort createdDesc).take 200 ∧
      l.Sorted createdDesc ∧ l.length = min 200 s.length ∧
      (∀ x ∈ l, x ∈ s) ∧ (s.length ≤ 200 → l.Perm s) := by
  have hlen : (s.insertionSort createdDesc).length = s.length :=
    List.length_insertionSort createdDesc s
  refine ⟨?_, ?_, (s.insertionSort createdDesc).take 200, ?_, rfl, ?_, ?_, ?_, ?_⟩
  · simp [adminListOrders, hwrong]
  · simp [adminListOrders, hok, hne]
  · simp [adminListOrders, hok, hne]
  · exact (List.sorted_insertionSort createdDesc s).sublist
      (List.take_sublist 200 (s.insertionSort createdDesc))
  · rw [List.length_take, hlen]
  · intro x hx
    exact (List.mem_insertionSort createdDesc).mp (List.mem_of_mem_take hx)
  · intro hle
    have htake : (s.insertionSort createdDesc).take 200 = s.insertionSort createdDesc :=
      List.take_of_length_le (by rw [hlen]; exact hle)
    rw [htake]
    exact List.perm_insertionSort createdDesc s

/-- C8 witness: a wrong token and the matching token against the concrete
secret, over the concrete one-row store. -/
theorem c8_witness :
    adminListOrders true (some "bad") "secret" storePending =
      (storePending, .unauthorized) ∧
    (adminListOrders true (some "secret") "secret" storePending).1 = storePending ∧
    ∃ l, (adminListOrders true (some "secret") "secret" storePending).2 = .ok l ∧
      l = (storePending.insertionSort createdDesc).take 200 ∧
      l.Sorted createdDesc ∧ l.length = min 200 storePending.length ∧
      (∀ x ∈ l, x ∈ storePending) ∧
      (storePending.length ≤ 200 → l.Perm storePending) :=
  c8_theorem (some "bad") "secret" storePending (by decide) (some "secret") rfl
    (by decide)

/-! ### C9 -/

/-- C9: an authorized ship call on an existing row writes `shipping_status`
and `shipped_at` together in one update — `shipped = true` sets the status
`shipped` with the current tick, `shipped = false` resets to `not_shipped`
and null — so `shipped_at` is non-null exactly when the status is `shipped`,
on the response and on every stored row for that id alike; the row's payment
fields are untouched and the handler never reads `payment_status`, so the
outcome is the same whatever that field holds. -/
theorem c9_theorem (tok exp : String) (hauth : requireAdmin tok exp = true)
    (s : Store) (idv now : Nat) (hid : idv ≠ 0)
    (r : OrderRow) (huniq : s.filter (fun x => decide (x.rowId = idv)) = [r])
    (shippedRaw : JsVal) :
    (adminShip true tok exp s idv shippedRaw now).2 =
      .ok (shipPatch shippedRaw.truthy now r) ∧
    (shipPatch shippedRaw.truthy now r).shipping_status =
      (if shippedRaw.truthy then "shipped" else "not_shipped") ∧
    (shipPatch shippedRaw.truthy now r).shipped_at =
      (if shippedRaw.truthy then some now else none) ∧
    ((shipPatch shippedRaw.truthy now r).shipped_at ≠ none ↔
      (shipPatch shippedRaw.truthy now r).shipping_status = "shipped") ∧
    (shipPatch shippedRaw.truthy now r).payment_status = r.payment_status ∧
    (shipPatch shippedRaw.truthy now r).paid_at = r.paid_at ∧
    (shipPatch shippedRaw.truthy now r).status = r.status ∧
    (∀ ps : String, shipPatch shippedRaw.truthy now { r with payment_status := ps } =
      { shipPatch shippedRaw.truthy now r with payment_status := ps }) ∧
    (∀ x ∈ (adminShip true tok exp s idv shippedRaw now).1, x.rowId = idv →
      (x.shipped_at ≠ none ↔ x.shipping_status = "shipped")) := by
  have hresp : adminShip true tok exp s idv shippedRaw now =
      (s.map fun x => if x.rowId = idv then shipPatch shippedRaw.truthy now x else x,
       .ok (shipPatch shippedRaw.truthy now r)) := by
    simp [adminShip, hauth, hid, huniq]
  have hinv : ∀ (y : OrderRow),
      ((shipPatch shippedRaw.truthy now y).shipped_at ≠ none ↔
        (shipPatch shippedRaw.truthy now y).shipping_status = "shipped") := by
    intro y
    by_cases hb : shippedRaw.truthy
    · simp [shipPatch, hb]
    · simp [shipPatch, hb]
  refine ⟨by rw [hresp], rfl, rfl, hinv r, rfl, rfl, rfl, fun ps => rfl, ?_⟩
  rw [hresp]
  intro x hx hxid
  rcases List.mem_map.mp hx with ⟨y, -, rfl⟩
  by_cases hc : y.rowId = idv
  · rw [if_pos hc]
    exact hinv y
  · rw [if_neg hc] at hxid ⊢
    exact absurd hxid hc

/-- C9 witness: the theorem at the concrete one-row store, shipping row 1
with `shipped = true`. -/
theorem c9_witness :
    (adminShip true "admin" "admin" storePending 1 (.bool true) 300).2 =
      .ok (shipPatch (JsVal.bool true).truthy 300 rowPending) ∧
    (shipPatch (JsVal.bool true).truthy 300 rowPending).shipping_status =
      (if (JsVal.bool true).truthy then "shipped" else "not_shipped") ∧
    (shipPatch (JsVal.bool true).truthy 300 rowPending).shipped_at =
      (if (JsVal.bool true).truthy then some 300 else none) ∧
    ((shipPatch (JsVal.bool true).truthy 300 rowPending).shipped_at ≠ none ↔
      (shipPatch (JsVal.bool true).truthy 300 rowPending).shipping_status = "shipped") ∧
    (shipPatch (JsVal.bool true).truthy 300 rowPending).payment_status =
      rowPending.payment_status ∧
    (shipPatch (JsVal.bool true).truthy 300 rowPending).paid_at = rowPending.paid_at ∧
    (shipPatch (JsVal.bool true).truthy 300 rowPending).status = rowPending.status ∧
    (∀ ps : String, shipPatch (JsVal.bool true).truthy 300 { rowPending with payment_status := ps } =
      { shipPatch (JsVal.bool true).truthy 300 rowPending with payment_status := ps }) ∧
    (∀ x ∈ (adminShip true "admin" "admin" storePending 1 (.bool true) 300).1,
      x.rowId = 1 → (x.shipped_at ≠ none ↔ x.shipping_status = "shipped")) :=
  c9_theorem "admin" "admin" (by decide) storePending 1 300 (by decide)
    rowPending rfl (.bool true)

/-! ### C10 -/

/-- C10: admin authorization fails closed when the secret is unconfigured —
with an empty configured secret the list route answers 401 for every token
(including the empty one), `requireAdmin` rejects every token, and the ship
route answers 401 before touching the store; the rejection is the
unauthorized response, not the configuration-error one. -/
theorem c10_theorem (tokenHeader : Option String) (s : Store) (token : String)
    (idv now : Nat) (sh : JsVal) :
    adminListOrders true tokenHeader "" s = (s, .unauthorized) ∧
    requireAdmin token "" = false ∧
    adminShip true token "" s idv sh now = (s, .unauthorized) := by
  refine ⟨?_, ?_, ?_⟩
  · simp [adminListOrders]
  · simp [requireAdmin]
  · simp [adminShip, requireAdmin]
